import Mathlib

/-!
Shallow embedding of the MCP Streamable HTTP transport layer of
`src/rust-mcp/src/mcp/http.rs`: the security validation pipeline
(`validate_origin`, `validate_auth`, `validate_protocol_version`),
the session registry and push-channel registry, the JSON-RPC dispatcher
(`handle_jsonrpc`, `cursor_initialize_result`), and the five transport
endpoints (`mcp_post`, `mcp_get`, `mcp_delete`, `legacy_sse`,
`legacy_messages`).  Machine strings are Lean `String`s; JSON values are
an inductive `Json`; the nondeterministic UUID generator is modelled by
passing the freshly minted identifier as an explicit argument.
-/

namespace McpHttp

/-- Shallow embedding of `serde_json::Value`. -/
inductive Json where
  | null : Json
  | bool : Bool → Json
  | num : Int → Json
  | str : String → Json
  | arr : List Json → Json
  | obj : List (String × Json) → Json
deriving Repr

/-- `Value::get(key)` on an object: first field with the given key (objects
built by the transport never repeat keys). Non-objects yield `none`. -/
def Json.get? (j : Json) (key : String) : Option Json :=
  match j with
  | .obj fields => lookupField fields key
  | _ => none
where
  lookupField : List (String × Json) → String → Option Json
    | [], _ => none
    | (k, v) :: rest, key => if k = key then some v else lookupField rest key

/-- `Value::as_str`. -/
def Json.asStr : Json → Option String
  | .str s => some s
  | _ => none

/-- The relevant request headers read by the transport
(`mcp-session-id`, `mcp-protocol-version`, `authorization`, `origin`,
`last-event-id`), each already converted to a string when present. -/
structure HeaderMap where
  origin : Option String
  authorization : Option String
  protocolVersion : Option String
  sessionId : Option String
  lastEventId : Option String
deriving Repr, DecidableEq

/-- `SecurityConfig`: `allowed_origins`, `none` = validation disabled,
`some []` = localhost only. -/
structure SecurityConfig where
  allowedOrigins : Option (List String)
deriving Repr, DecidableEq

/-- `AuthConfig`: optional expected bearer token plus enabled flag. -/
structure AuthConfig where
  bearerToken : Option String
  enabled : Bool
deriving Repr, DecidableEq

/-- `DEFAULT_PROTOCOL_VERSION`. -/
def DEFAULT_PROTOCOL_VERSION : String := "2025-03-26"

/-- `CURRENT_PROTOCOL_VERSION`. -/
def CURRENT_PROTOCOL_VERSION : String := "2025-11-05"

/-- Substring containment, embedding Rust `str::contains` with a literal
pattern. -/
def strContains (s pat : String) : Bool :=
  infixCheck pat.data s.data
where
  infixCheck (p : List Char) : List Char → Bool
    | [] => p.isEmpty
    | c :: rest => p.isPrefixOf (c :: rest) || infixCheck p rest

/-- Rust `str::starts_with` for string patterns. -/
def strStartsWith (s pre : String) : Bool :=
  pre.data.isPrefixOf s.data

/-- Byte slicing `&header[7..]` after a 7-byte ASCII prefix: dropping the
first `n` characters. -/
def strDropChars (s : String) (n : Nat) : String :=
  String.mk (s.data.drop n)

/-- JSON-RPC error codes used by the transport (from the MCP SDK). -/
def invalidRequestCode : Int := -32600

def serverNotInitializedCode : Int := -32002

def internalErrorCode : Int := -32603

/-- A failed security/validation check: either a JSON-RPC-shaped error body
(`jsonrpc_err_no_id`) with an HTTP status, or an OAuth-style auth error body
with `error` and `error_description` fields. -/
inductive CheckFail where
  | jsonrpcErr (status : Nat) (code : Int) (message : String)
  | authErr (status : Nat) (error : String) (description : String)
deriving Repr, DecidableEq

/-- The origin value is considered localhost when it contains `localhost`,
`127.0.0.1` or `[::1]` (from the body of `validate_origin`). -/
def isLocalhostOrigin (o : String) : Bool :=
  strContains o "localhost" || strContains o "127.0.0.1" || strContains o "[::1]"

/-- `validate_origin`. -/
def validate_origin (headers : HeaderMap) (security : SecurityConfig) :
    Except CheckFail Unit :=
  match security.allowedOrigins with
  | none => .ok ()
  | some allowed =>
    match headers.origin with
    | some originStr =>
      let isLocalhost := isLocalhostOrigin originStr
      if allowed.isEmpty then
        if isLocalhost then .ok ()
        else .error (.jsonrpcErr 403 invalidRequestCode
          "Origin not allowed: only localhost permitted")
      else if allowed.any (fun a => a = originStr) || isLocalhost then .ok ()
      else .error (.jsonrpcErr 403 invalidRequestCode
        ("Origin not allowed: " ++ originStr))
    | none => .ok ()

/-- `validate_auth`. -/
def validate_auth (headers : HeaderMap) (auth : AuthConfig) :
    Except CheckFail Unit :=
  if !auth.enabled then .ok ()
  else
    match auth.bearerToken with
    | none => .error (.authErr 500 "server_error"
        "Authentication enabled but no token configured")
    | some expected =>
      match headers.authorization with
      | some header =>
        if strStartsWith header "Bearer " then
          let token := strDropChars header 7
          if token = expected then .ok ()
          else .error (.authErr 401 "invalid_token" "The access token is invalid")
        else .error (.authErr 401 "invalid_request"
          "Authorization header must use Bearer scheme")
      | none => .error (.authErr 401 "invalid_request" "Missing Authorization header")

/-- `SessionState`: initialization flag, negotiated protocol version, and the
per-session event counter (the `AtomicU64`).  The dead-code resumability
event buffer is not modelled. -/
structure SessionState where
  initialized : Bool
  protocolVersion : String
  eventCounter : Nat
deriving Repr, DecidableEq

/-- `SessionState::new` — note the source sets `initialized: true`. -/
def SessionState.new (protocolVersion : String) : SessionState :=
  { initialized := true, protocolVersion := protocolVersion, eventCounter := 0 }

/-- `SessionState::default` (only reachable through `Default`, never used by
the endpoints). -/
def SessionState.defaultState : SessionState :=
  { initialized := false, protocolVersion := DEFAULT_PROTOCOL_VERSION,
    eventCounter := 0 }

/-- The list of recognized protocol versions in `validate_protocol_version`. -/
def knownVersions : List String :=
  ["2024-11-05", "2025-03-26", "2025-11-05", CURRENT_PROTOCOL_VERSION]

/-- `validate_protocol_version`. -/
def validate_protocol_version (headers : HeaderMap)
    (session : Option SessionState) : Except CheckFail Unit :=
  match headers.protocolVersion with
  | some v =>
    let expected := (session.map (fun s => s.protocolVersion)).getD
      CURRENT_PROTOCOL_VERSION
    if v = expected || knownVersions.contains v then .ok ()
    else .error (.jsonrpcErr 400 invalidRequestCode
      ("Unsupported protocol version: " ++ v))
  | none => .ok ()

/-! ### Registries

The `HashMap` registries (`sessions`, `sse_channels`) are modelled as
association lists observed only through lookup; `insert` replaces, `remove`
deletes, `entry(..).or_insert_with(..)` inserts only when absent. -/

/-- `HashMap::get`. -/
def mapLookup {α : Type} : List (String × α) → String → Option α
  | [], _ => none
  | (k, v) :: rest, key => if k = key then some v else mapLookup rest key

/-- `HashMap::insert` (replacing any previous binding). -/
def mapInsert {α : Type} (m : List (String × α)) (k : String) (v : α) :
    List (String × α) :=
  (k, v) :: m

/-- `HashMap::remove`. -/
def mapRemove {α : Type} (m : List (String × α)) (k : String) :
    List (String × α) :=
  m.filter (fun p => p.1 != k)

/-- `HashMap::entry(k).or_insert_with(dflt)`: keep an existing binding,
insert the default otherwise. -/
def mapEntryOrInsert {α : Type} (m : List (String × α)) (k : String) (dflt : α) :
    List (String × α) :=
  match mapLookup m k with
  | some _ => m
  | none => mapInsert m k dflt

/-- Updating an existing binding in place (`get_mut` followed by a field
write); absent keys leave the map unchanged. -/
def mapUpdate {α : Type} (m : List (String × α)) (k : String) (f : α → α) :
    List (String × α) :=
  match m with
  | [] => []
  | (k', v) :: rest =>
    if k' = k then (k', f v) :: rest else (k', v) :: mapUpdate rest k f

/-! ### Decimal rendering

`format!("{}:{}", session_id, counter)` renders the counter in decimal.
The renderer is fuel-structural so concrete event ids reduce by `rfl`. -/

/-- The ASCII digit character for a digit value `0..9`. -/
def digitChar : Nat → Char
  | 0 => '0' | 1 => '1' | 2 => '2' | 3 => '3' | 4 => '4'
  | 5 => '5' | 6 => '6' | 7 => '7' | 8 => '8' | 9 => '9'
  | _ => '*'

/-- Big-endian decimal digits of `n` (empty for `0`), with explicit fuel. -/
def natDigitsAux : Nat → Nat → List Char
  | 0, _ => []
  | fuel + 1, n =>
    if n = 0 then [] else natDigitsAux fuel (n / 10) ++ [digitChar (n % 10)]

/-- Big-endian decimal digits of `n` (empty for `0`). -/
def natDigits (n : Nat) : List Char := natDigitsAux (n + 1) n

/-- Decimal rendering of a natural number, as Rust `format!("{}")`. -/
def natRepr (n : Nat) : String :=
  if n = 0 then "0" else String.mk (natDigits n)

/-- `SessionState::next_event_id`: formats `sessionId:counter` and bumps the
atomic counter; the returned state carries the incremented counter. -/
def SessionState.nextEventId (s : SessionState) (sessionId : String) :
    String × SessionState :=
  (sessionId ++ ":" ++ natRepr s.eventCounter,
   { s with eventCounter := s.eventCounter + 1 })

/-! ### Handler interface and application state -/

/-- The external `McpOdooHandler` interface used by the transport
(`handle_method` plus the handshake accessors). -/
structure Handler where
  handleMethod : String → Option Json → Except String Json
  protocolVersionDefault : String
  serverName : String
  instructions : String
  instanceNames : List String

/-- `AppState` minus the handler (kept as an explicit argument): the session
registry, the push-channel registry (a channel is observed as the list of
messages published to it, oldest first), and the two security configs. -/
structure AppState where
  sessions : List (String × SessionState)
  sseChannels : List (String × List Json)
  auth : AuthConfig
  security : SecurityConfig

/-! ### JSON-RPC envelope builders -/

/-- `RequestId` from the MCP SDK: a number or a string. -/
inductive RequestId where
  | num : Int → RequestId
  | str : String → RequestId
deriving Repr, DecidableEq

/-- Deserializing a JSON value into a `RequestId`. -/
def parseRequestId : Json → Option RequestId
  | .num n => some (.num n)
  | .str s => some (.str s)
  | _ => none

/-- Serializing a `RequestId` back to JSON. -/
def requestIdJson : RequestId → Json
  | .num n => .num n
  | .str s => .str s

/-- `Response::success`. -/
def mkSuccess (id : RequestId) (result : Json) : Json :=
  .obj [("jsonrpc", .str "2.0"), ("id", requestIdJson id), ("result", result)]

/-- `jsonrpc_err`: an error envelope referencing the request id. -/
def mkError (id : RequestId) (code : Int) (message : String) : Json :=
  .obj [("jsonrpc", .str "2.0"), ("id", requestIdJson id),
        ("error", .obj [("code", .num code), ("message", .str message)])]

/-- `jsonrpc_err_no_id`. -/
def jsonrpcErrNoId (code : Int) (message : String) : Json :=
  .obj [("jsonrpc", .str "2.0"),
        ("error", .obj [("code", .num code), ("message", .str message)])]

/-- The placeholder for `env!("CARGO_PKG_VERSION")`, a build-time constant. -/
def cargoPkgVersion : String := "CARGO_PKG_VERSION"

/-- `cursor_initialize_result`: negotiates the protocol version (the
requested string when present, the configured default otherwise) and builds
the capability announcement.  The source returns `Ok` unconditionally. -/
def cursor_initialize_result (params : Json) (odooInstances : List String)
    (protocolDefault serverName instructions : String) : Json × String :=
  let protocolVersion :=
    ((params.get? "protocolVersion").bind Json.asStr).getD protocolDefault
  let result : Json := .obj [
    ("protocolVersion", .str protocolVersion),
    ("capabilities", .obj [
      ("tools", .obj [("listChanged", .bool true)]),
      ("prompts", .obj [("listChanged", .bool true)]),
      ("resources", .obj []),
      ("experimental", .obj [
        ("odooInstances", .obj [
          ("available", .arr (odooInstances.map Json.str))])])]),
    ("serverInfo", .obj [
      ("name", .str serverName), ("version", .str cargoPkgVersion)]),
    ("instructions", .str instructions)]
  (result, protocolVersion)

/-! ### Dispatcher -/

/-- `validate_session`: a supplied session id must name a live session
(404 otherwise); no session id means no session is required. -/
def validate_session (sessionId : Option String)
    (sessions : List (String × SessionState)) :
    Except CheckFail (Option SessionState) :=
  match sessionId with
  | some id =>
    match mapLookup sessions id with
    | some st => .ok (some st)
    | none => .error (.jsonrpcErr 404 invalidRequestCode
        "Session not found or expired")
  | none => .ok none

/-- The successful outcome of `handle_jsonrpc`: the updated application
state plus the source's tuple `(new_session, maybe_response, status,
protocol_version)`. -/
structure DispatchOk where
  state : AppState
  newSession : Option String
  response : Option Json
  status : Nat
  protocolVersion : Option String

/-- `handle_jsonrpc`.  The `freshId` argument stands for the output of
`Uuid::new_v4()` in the `initialize` branch; `badIdMsg` stands for the
serde error text when the `id` value deserializes to no `RequestId`. -/
def badIdMsg : String := "invalid id"

def handle_jsonrpc (handler : Handler) (state : AppState) (freshId : String)
    (sessionId : Option String) (v : Json) :
    Except (Nat × Json) DispatchOk :=
  match v with
  | .obj fields =>
    match (Json.get?.lookupField fields "method").bind Json.asStr with
    | none => .error (400, .obj [("error", .str "missing method")])
    | some method =>
      let idVal := Json.get?.lookupField fields "id"
      let params := Json.get?.lookupField fields "params"
      let effectiveSession := sessionId
      if method = "initialize" then
        match idVal with
        | none => .error (400, .obj [("error", .str "initialize requires id")])
        | some idJson =>
          match parseRequestId idJson with
          | none => .error (400, .obj [("error", .str badIdMsg)])
          | some id =>
            let params := params.getD (.obj [])
            let rn := cursor_initialize_result params handler.instanceNames
              handler.protocolVersionDefault handler.serverName
              handler.instructions
            let sess := freshId
            let state1 : AppState :=
              { state with
                sessions := mapInsert state.sessions sess
                  (SessionState.new rn.2),
                sseChannels := mapEntryOrInsert state.sseChannels sess [] }
            .ok { state := state1, newSession := some sess,
                  response := some (mkSuccess id rn.1), status := 200,
                  protocolVersion := some rn.2 }
      else if method = "initialized" then
        let state1 : AppState :=
          match effectiveSession with
          | some sess =>
            { state with
              sessions := mapUpdate state.sessions sess
                (fun st => { st with initialized := true }) }
          | none => state
        .ok { state := state1, newSession := none, response := none,
              status := 202, protocolVersion := none }
      else
        let gated :=
          match effectiveSession with
          | some sess =>
            match mapLookup state.sessions sess with
            | some st => !st.initialized
            | none => false
          | none => false
        if gated then
          let id := ((idVal.bind parseRequestId).getD (.str "unknown"))
          .ok { state := state, newSession := none,
                response := some (mkError id serverNotInitializedCode
                  "Server not initialized"),
                status := 200, protocolVersion := none }
        else
          match idVal with
          | none =>
            -- notification: best-effort dispatch, result ignored
            .ok { state := state, newSession := none, response := none,
                  status := 202, protocolVersion := none }
          | some idJson =>
            match parseRequestId idJson with
            | none => .error (400, .obj [("error", .str badIdMsg)])
            | some id =>
              match handler.handleMethod method params with
              | .error e => .error (200, mkError id internalErrorCode e)
              | .ok result =>
                .ok { state := state, newSession := none,
                      response := some (mkSuccess id result), status := 200,
                      protocolVersion := none }
  | _ => .error (400, .obj [("error", .str "expected object")])

/-! ### Endpoints -/

/-- The observable HTTP response of a non-streaming endpoint: status code,
the two optional response headers, and an optional JSON body. -/
structure HttpResponse where
  status : Nat
  headerSessionId : Option String
  headerProtocolVersion : Option String
  body : Option Json

/-- Rendering a failed check as an HTTP response. -/
def failResponse : CheckFail → HttpResponse
  | .jsonrpcErr status code message =>
    { status := status, headerSessionId := none, headerProtocolVersion := none,
      body := some (jsonrpcErrNoId code message) }
  | .authErr status error description =>
    { status := status, headerSessionId := none, headerProtocolVersion := none,
      body := some (.obj [("error", .str error),
        ("error_description", .str description)]) }

/-- `POST /mcp` (`mcp_post`). -/
def mcp_post (handler : Handler) (state : AppState) (freshId : String)
    (headers : HeaderMap) (body : Json) : HttpResponse × AppState :=
  match validate_origin headers state.security with
  | .error f => (failResponse f, state)
  | .ok _ =>
    match validate_auth headers state.auth with
    | .error f => (failResponse f, state)
    | .ok _ =>
      let sessionId := headers.sessionId
      let isInitialize := ((body.get? "method").bind Json.asStr) = some "initialize"
      let preCheck : Except CheckFail Unit :=
        if !isInitialize then
          match sessionId with
          | some sid =>
            match validate_session (some sid) state.sessions with
            | .error f => .error f
            | .ok _ =>
              validate_protocol_version headers (mapLookup state.sessions sid)
          | none => .ok ()
        else .ok ()
      match preCheck with
      | .error f => (failResponse f, state)
      | .ok _ =>
        match handle_jsonrpc handler state freshId sessionId body with
        | .error (sc, v) =>
          ({ status := sc, headerSessionId := none,
             headerProtocolVersion := none, body := some v }, state)
        | .ok d =>
          ({ status := d.status, headerSessionId := d.newSession,
             headerProtocolVersion := d.protocolVersion, body := d.response },
           d.state)

/-- The observable outcome of opening the `GET /mcp` stream: the session id
the stream is bound to and the id of the priming `connected` event. -/
structure SseStreamInfo where
  sessionId : String
  initialEventId : String

/-- `GET /mcp` (`mcp_get`): security checks, session id defaulting to
`"default"`, lazy channel creation, and the priming event id (minting an
event id — and thus bumping the session counter — when the session is
known). -/
def mcp_get (state : AppState) (headers : HeaderMap) :
    Except CheckFail (SseStreamInfo × AppState) :=
  match validate_origin headers state.security with
  | .error f => .error f
  | .ok _ =>
    match validate_auth headers state.auth with
    | .error f => .error f
    | .ok _ =>
      let sessionId := headers.sessionId.getD "default"
      let chans := mapEntryOrInsert state.sseChannels sessionId []
      match mapLookup state.sessions sessionId with
      | some s =>
        let minted := s.nextEventId sessionId
        .ok ({ sessionId := sessionId, initialEventId := minted.1 },
             { state with
               sseChannels := chans,
               sessions := mapUpdate state.sessions sessionId
                 (fun _ => minted.2) })
      | none =>
        .ok ({ sessionId := sessionId, initialEventId := sessionId ++ ":0" },
             { state with sseChannels := chans })

/-- `DELETE /mcp` (`mcp_delete`). -/
def mcp_delete (state : AppState) (headers : HeaderMap) :
    HttpResponse × AppState :=
  match validate_origin headers state.security with
  | .error f => (failResponse f, state)
  | .ok _ =>
    match validate_auth headers state.auth with
    | .error f => (failResponse f, state)
    | .ok _ =>
      match headers.sessionId with
      | none =>
        ({ status := 400, headerSessionId := none,
           headerProtocolVersion := none,
           body := some (jsonrpcErrNoId invalidRequestCode
             "Missing MCP-Session-Id header") }, state)
      | some sessionId =>
        let removed := (mapLookup state.sessions sessionId).isSome
        let state1 : AppState :=
          { state with
            sessions := mapRemove state.sessions sessionId,
            sseChannels := mapRemove state.sseChannels sessionId }
        if removed then
          ({ status := 200, headerSessionId := none,
             headerProtocolVersion := none, body := none }, state1)
        else
          ({ status := 404, headerSessionId := none,
             headerProtocolVersion := none,
             body := some (jsonrpcErrNoId invalidRequestCode
               "Session not found") }, state1)

/-- `GET /sse` (`legacy_sse`): mints a brand-new session id (`freshId`
stands for `Uuid::new_v4()`), creates only its push channel — the session
registry is untouched — and announces the side-channel endpoint path. -/
def legacy_sse (state : AppState) (freshId : String) (headers : HeaderMap) :
    Except CheckFail (String × AppState) :=
  match validate_origin headers state.security with
  | .error f => .error f
  | .ok _ =>
    match validate_auth headers state.auth with
    | .error f => .error f
    | .ok _ =>
      let sessionId := freshId
      let chans := mapEntryOrInsert state.sseChannels sessionId []
      .ok ("/messages?sessionId=" ++ sessionId,
           { state with sseChannels := chans })

/-- Publishing a value on a session's push channel (`tx.send`): recorded by
appending to the channel's message list; no channel, no delivery. -/
def publish (chans : List (String × List Json)) (sess : String) (v : Json) :
    List (String × List Json) :=
  match mapLookup chans sess with
  | some msgs => mapInsert (mapRemove chans sess) sess (msgs ++ [v])
  | none => chans

/-- `POST /messages` (`legacy_messages`): session id from the query
parameter or the header, dispatch, publish any produced response on the
session's channel, answer 202 on dispatch success and plain 400 on dispatch
failure. -/
def legacy_messages (handler : Handler) (state : AppState) (freshId : String)
    (querySessionId : Option String) (headers : HeaderMap) (body : Json) :
    HttpResponse × AppState :=
  match validate_origin headers state.security with
  | .error f => (failResponse f, state)
  | .ok _ =>
    match validate_auth headers state.auth with
    | .error f => (failResponse f, state)
    | .ok _ =>
      let session := querySessionId.orElse (fun _ => headers.sessionId)
      match handle_jsonrpc handler state freshId session body with
      | .error _ =>
        ({ status := 400, headerSessionId := none,
           headerProtocolVersion := none, body := none }, state)
      | .ok d =>
        let state1 : AppState :=
          match session, d.response with
          | some sess, some resp =>
            { d.state with sseChannels := publish d.state.sseChannels sess resp }
          | _, _ => d.state
        ({ status := 202, headerSessionId := none,
           headerProtocolVersion := none, body := none }, state1)

/-! ### Minting event ids -/

/-- A concrete external handler answering every method with `"ok"`. -/
def testHandler : Handler :=
  { handleMethod := fun _ _ => .ok (.str "ok"),
    protocolVersionDefault := "2025-03-26",
    serverName := "odoo-mcp",
    instructions := "instructions",
    instanceNames := ["main"] }

def authDisabled : AuthConfig := { bearerToken := none, enabled := false }

def authSecret : AuthConfig := { bearerToken := some "secret", enabled := true }

def authNoToken : AuthConfig := { bearerToken := none, enabled := true }

def secDisabled : SecurityConfig := { allowedOrigins := none }

def secLocalhostOnly : SecurityConfig := { allowedOrigins := some [] }

def secExample : SecurityConfig :=
  { allowedOrigins := some ["https://example.com"] }

def emptyHeaders : HeaderMap :=
  { origin := none, authorization := none, protocolVersion := none,
    sessionId := none, lastEventId := none }

/-- A fresh application state with every check disabled. -/
def openState : AppState :=
  { sessions := [], sseChannels := [], auth := authDisabled,
    security := secDisabled }

def initializeMsg : Json :=
  .obj [("jsonrpc", .str "2.0"), ("id", .num 1),
        ("method", .str "initialize"),
        ("params", .obj [("protocolVersion", .str "2025-03-26")])]

/-- The one-session state used by the C6 witness. -/
def oneSessionState : AppState :=
  { openState with
    sessions := [("s1", SessionState.new "2025-03-26")],
    sseChannels := [("s1", [])] }

def legacyChanState : AppState :=
  { openState with sseChannels := [("sidL", [])] }

/-- The request body used by the C5 witness. -/
def legacyBody : Json :=
  .obj [("jsonrpc", .str "2.0"), ("id", .num 7), ("method", .str "tools/list")]

/-- The dispatch outcome of `legacyBody` against `legacyChanState`. -/
def legacyDispatch : DispatchOk :=
  { state := legacyChanState, newSession := none,
    response := some (mkSuccess (.num 7) (.str "ok")), status := 200,
    protocolVersion := none }

/-- The initialize result and negotiated version computed by
`handle_jsonrpc` for a message with the given fields. -/
def initOutcome (handler : Handler) (fields : List (String × Json)) :
    Json × String :=
  cursor_initialize_result
    ((Json.get?.lookupField fields "params").getD (.obj []))
    handler.instanceNames handler.protocolVersionDefault handler.serverName
    handler.instructions

/-- The fields of `initializeMsg`, and an id-less initialize message. -/
def initFields : List (String × Json) :=
  [("jsonrpc", .str "2.0"), ("id", .num 1), ("method", .str "initialize"),
   ("params", .obj [("protocolVersion", .str "2025-03-26")])]

def initFieldsNoId : List (String × Json) :=
  [("jsonrpc", .str "2.0"), ("method", .str "initialize")]

def badEverythingHeaders : HeaderMap :=
  { origin := some "http://evil.com", authorization := none,
    protocolVersion := some "bogus", sessionId := some "s1",
    lastEventId := none }

def lockedState : AppState :=
  { sessions := [("s1", SessionState.new "2025-03-26")],
    sseChannels := [("s1", [])], auth := authSecret,
    security := secLocalhostOnly }

/-- The state right after a successful `initialize` minting session `sid1`. -/
def stAfterInit : AppState :=
  (mcp_post testHandler openState "sid1" emptyHeaders initializeMsg).2

def toolsListMsg : Json :=
  .obj [("jsonrpc", .str "2.0"), ("id", .num 2), ("method", .str "tools/list")]

/-! ### Support lemmas on the registries -/

theorem mapLookup_insert_self {α : Type} (m : List (String × α)) (k : String)
    (v : α) : mapLookup (mapInsert m k v) k = some v := by
  simp [mapInsert, mapLookup]

theorem mapLookup_remove_self {α : Type} (m : List (String × α)) (k : String) :
    mapLookup (mapRemove m k) k = none := by
  induction m with
  | nil => rfl
  | cons p rest ih =>
    by_cases h : p.1 = k
    · simpa [mapRemove, List.filter_cons, h] using ih
    · simpa [mapRemove, List.filter_cons, h, mapLookup] using ih

theorem mapLookup_entryOrInsert_isSome {α : Type} (m : List (String × α))
    (k : String) (d : α) :
    (mapLookup (mapEntryOrInsert m k d) k).isSome = true := by
  unfold mapEntryOrInsert
  cases h : mapLookup m k with
  | some v => simp [h]
  | none => simp [mapLookup_insert_self]

/-! ### Support lemmas on strings -/

theorem isPrefixOf_append_self (p q : List Char) :
    p.isPrefixOf (p ++ q) = true := by
  induction p with
  | nil => simp [List.isPrefixOf]
  | cons a as ih => simp [List.isPrefixOf, ih]

theorem strStartsWith_append (p s : String) :
    strStartsWith (p ++ s) p = true := by
  simp [strStartsWith, String.data_append, isPrefixOf_append_self]

theorem strDropChars_append (p s : String) :
    strDropChars (p ++ s) p.data.length = s := by
  simp [strDropChars, String.data_append, List.drop_left]

theorem strDropChars_bearer (s : String) :
    strDropChars ("Bearer " ++ s) 7 = s :=
  strDropChars_append "Bearer " s

/-- Publishing onto an existing channel appends the message. -/
theorem mapLookup_publish {chans : List (String × List Json)} {sess : String}
    {msgs : List Json} (v : Json) (h : mapLookup chans sess = some msgs) :
    mapLookup (publish chans sess v) sess = some (msgs ++ [v]) := by
  unfold publish
  rw [h]
  exact mapLookup_insert_self _ _ _

/-! ### Claims -/

/-- C3: the auth check passes whenever auth is disabled; fails closed with a
500 `server_error` when enabled without a configured token; with an expected
token, `Authorization: Bearer <expected>` passes, a mismatched bearer token
fails 401 `invalid_token`, and a missing header or a non-Bearer scheme fails
401 `invalid_request`. -/
theorem C3_auth_check (headers : HeaderMap) (auth : AuthConfig) :
    (auth.enabled = false → validate_auth headers auth = .ok ()) ∧
    (auth.enabled = true → auth.bearerToken = none →
      validate_auth headers auth = .error (.authErr 500 "server_error"
        "Authentication enabled but no token configured")) ∧
    (∀ t : String, auth.enabled = true → auth.bearerToken = some t →
      (headers.authorization = some ("Bearer " ++ t) →
        validate_auth headers auth = .ok ()) ∧
      (∀ s : String, headers.authorization = some ("Bearer " ++ s) → s ≠ t →
        validate_auth headers auth = .error (.authErr 401 "invalid_token"
          "The access token is invalid")) ∧
      (headers.authorization = none →
        validate_auth headers auth = .error (.authErr 401 "invalid_request"
          "Missing Authorization header")) ∧
      (∀ hv : String, headers.authorization = some hv →
        strStartsWith hv "Bearer " = false →
        validate_auth headers auth = .error (.authErr 401 "invalid_request"
          "Authorization header must use Bearer scheme"))) := by
  refine ⟨?_, ?_, ?_⟩
  · intro h
    simp [validate_auth, h]
  · intro he ht
    simp [validate_auth, he, ht]
  · intro t he ht
    refine ⟨?_, ?_, ?_, ?_⟩
    · intro hh
      simp [validate_auth, he, ht, hh, strStartsWith_append, strDropChars_bearer]
    · intro s hh hne
      simp [validate_auth, he, ht, hh, strStartsWith_append, strDropChars_bearer,
        hne]
    · intro hh
      simp [validate_auth, he, ht, hh]
    · intro hv hh hpre
      simp [validate_auth, he, ht, hh, hpre]

/-- Witness for C3 at the spec's concrete examples. -/
theorem C3_auth_check_witness :
    validate_auth { emptyHeaders with authorization := some "Bearer bogus" }
      authDisabled = .ok () ∧
    validate_auth { emptyHeaders with authorization := some "Bearer secret" }
      authSecret = .ok () ∧
    validate_auth { emptyHeaders with authorization := some "Bearer wrong" }
      authSecret = .error (.authErr 401 "invalid_token"
        "The access token is invalid") ∧
    validate_auth emptyHeaders authSecret =
      .error (.authErr 401 "invalid_request" "Missing Authorization header") ∧
    validate_auth { emptyHeaders with authorization := some "Basic abc" }
      authSecret = .error (.authErr 401 "invalid_request"
        "Authorization header must use Bearer scheme") ∧
    validate_auth emptyHeaders authNoToken =
      .error (.authErr 500 "server_error"
        "Authentication enabled but no token configured") := by
  refine ⟨(C3_auth_check _ authDisabled).1 rfl,
    ((C3_auth_check _ authSecret).2.2 "secret" rfl rfl).1 rfl,
    ((C3_auth_check _ authSecret).2.2 "secret" rfl rfl).2.1 "wrong" rfl
      (by decide),
    ((C3_auth_check _ authSecret).2.2 "secret" rfl rfl).2.2.1 rfl,
    ((C3_auth_check _ authSecret).2.2 "secret" rfl rfl).2.2.2 "Basic abc" rfl
      (by decide),
    (C3_auth_check _ authNoToken).2.1 rfl rfl⟩

/-- C4: the origin check passes when validation is disabled or no Origin
header is present; with an empty allow-list an origin passes iff it contains
`localhost`, `127.0.0.1` or `[::1]`, failing 403 otherwise; with a non-empty
allow-list an origin passes if it is a list entry or localhost, failing 403
otherwise. -/
theorem C4_origin_check (headers : HeaderMap) (security : SecurityConfig) :
    (security.allowedOrigins = none →
      validate_origin headers security = .ok ()) ∧
    (headers.origin = none → validate_origin headers security = .ok ()) ∧
    (∀ o : String, headers.origin = some o →
      security.allowedOrigins = some [] →
      (validate_origin headers security = .ok () ↔ isLocalhostOrigin o = true) ∧
      (isLocalhostOrigin o = false →
        validate_origin headers security = .error (.jsonrpcErr 403
          invalidRequestCode "Origin not allowed: only localhost permitted"))) ∧
    (∀ (o : String) (allowed : List String), headers.origin = some o →
      security.allowedOrigins = some allowed → allowed ≠ [] →
      (o ∈ allowed ∨ isLocalhostOrigin o = true →
        validate_origin headers security = .ok ()) ∧
      (o ∉ allowed → isLocalhostOrigin o = false →
        validate_origin headers security = .error (.jsonrpcErr 403
          invalidRequestCode ("Origin not allowed: " ++ o)))) := by
  refine ⟨?_, ?_, ?_, ?_⟩
  · intro h
    simp [validate_origin, h]
  · intro h
    cases hs : security.allowedOrigins <;> simp [validate_origin, h, hs]
  · intro o ho hs
    constructor
    · cases hl : isLocalhostOrigin o <;>
        simp [validate_origin, ho, hs, hl]
    · intro hl
      simp [validate_origin, ho, hs, hl]
  · intro o allowed ho hs hne
    have hemp : allowed.isEmpty = false := by
      cases allowed with
      | nil => exact absurd rfl hne
      | cons a as => rfl
    constructor
    · intro hmem
      rcases hmem with hmem | hl
      · have hany : allowed.any (fun a => a = o) = true := by
          simp [List.any_eq_true]
          exact hmem
        simp [validate_origin, ho, hs, hemp, hany]
      · simp [validate_origin, ho, hs, hemp, hl]
    · intro hmem hl
      have hany : allowed.any (fun a => a = o) = false := by
        simp [List.any_eq_true]
        intro x hx hxo
        exact absurd (hxo ▸ hx) hmem
      simp [validate_origin, ho, hs, hemp, hany, hl]

/-- Witness for C4 at the spec's round-trip examples. -/
theorem C4_origin_check_witness :
    validate_origin { emptyHeaders with origin := some "http://localhost:3000" }
      secLocalhostOnly = .ok () ∧
    validate_origin { emptyHeaders with origin := some "http://evil.com" }
      secLocalhostOnly = .error (.jsonrpcErr 403 invalidRequestCode
        "Origin not allowed: only localhost permitted") ∧
    validate_origin { emptyHeaders with origin := some "https://example.com" }
      secExample = .ok () ∧
    validate_origin { emptyHeaders with origin := some "http://localhost:3000" }
      secExample = .ok () ∧
    validate_origin { emptyHeaders with origin := some "https://other.com" }
      secExample = .error (.jsonrpcErr 403 invalidRequestCode
        ("Origin not allowed: " ++ "https://other.com")) ∧
    validate_origin { emptyHeaders with origin := some "http://evil.com" }
      secDisabled = .ok () := by
  refine ⟨((C4_origin_check _ secLocalhostOnly).2.2.1 _ rfl rfl).1.mpr (by decide),
    ((C4_origin_check _ secLocalhostOnly).2.2.1 _ rfl rfl).2 (by decide),
    ((C4_origin_check _ secExample).2.2.2 _ _ rfl rfl (by decide)).1
      (Or.inl (by decide)),
    ((C4_origin_check _ secExample).2.2.2 _ _ rfl rfl (by decide)).1
      (Or.inr (by decide)),
    ((C4_origin_check _ secExample).2.2.2 _ _ rfl rfl (by decide)).2
      (by decide) (by decide),
    (C4_origin_check _ secDisabled).1 rfl⟩

/-- C6: terminating without a session id header is a bad request; terminating
an unknown session id answers 404; terminating a known session answers 200
and removes both the session and its push channel, so a second termination
of the same id answers 404. -/
theorem C6_terminate (st : AppState) (headers : HeaderMap)
    (hO : validate_origin headers st.security = .ok ())
    (hA : validate_auth headers st.auth = .ok ()) :
    (headers.sessionId = none →
      (mcp_delete st headers).1.status = 400 ∧ (mcp_delete st headers).2 = st) ∧
    (∀ sid, headers.sessionId = some sid →
      (mapLookup st.sessions sid = none →
        (mcp_delete st headers).1.status = 404) ∧
      (∀ s, mapLookup st.sessions sid = some s →
        (mcp_delete st headers).1.status = 200 ∧
        mapLookup (mcp_delete st headers).2.sessions sid = none ∧
        mapLookup (mcp_delete st headers).2.sseChannels sid = none ∧
        (mcp_delete (mcp_delete st headers).2 headers).1.status = 404)) := by
  refine ⟨?_, ?_⟩
  · intro hsid
    simp [mcp_delete, hO, hA, hsid]
  · intro sid hsid
    refine ⟨?_, ?_⟩
    · intro hlook
      simp [mcp_delete, hO, hA, hsid, hlook]
    · intro s hlook
      have h1 : mcp_delete st headers =
          ({ status := 200, headerSessionId := none,
             headerProtocolVersion := none, body := none },
           { st with
             sessions := mapRemove st.sessions sid,
             sseChannels := mapRemove st.sseChannels sid }) := by
        simp [mcp_delete, hO, hA, hsid, hlook]
      refine ⟨by rw [h1], ?_, ?_, ?_⟩
      · rw [h1]
        exact mapLookup_remove_self _ _
      · rw [h1]
        exact mapLookup_remove_self _ _
      · rw [h1]
        simp [mcp_delete, hO, hA, hsid, mapLookup_remove_self]

/-- Witness for C6: a state holding one session `s1`, terminated twice, and
the missing-header and unknown-id cases. -/
theorem C6_terminate_witness :
    (mcp_delete oneSessionState emptyHeaders).1.status = 400 ∧
    (mcp_delete oneSessionState
      { emptyHeaders with sessionId := some "nope" }).1.status = 404 ∧
    (mcp_delete oneSessionState
      { emptyHeaders with sessionId := some "s1" }).1.status = 200 ∧
    (mcp_delete
      (mcp_delete oneSessionState
        { emptyHeaders with sessionId := some "s1" }).2
      { emptyHeaders with sessionId := some "s1" }).1.status = 404 := by
  refine ⟨?_, ?_, ?_, ?_⟩
  · exact ((C6_terminate oneSessionState emptyHeaders rfl rfl).1 rfl).1
  · exact ((C6_terminate oneSessionState
      { emptyHeaders with sessionId := some "nope" } rfl rfl).2 "nope" rfl).1 rfl
  · exact (((C6_terminate oneSessionState
      { emptyHeaders with sessionId := some "s1" } rfl rfl).2 "s1" rfl).2
      (SessionState.new "2025-03-26") rfl).1
  · exact (((C6_terminate oneSessionState
      { emptyHeaders with sessionId := some "s1" } rfl rfl).2 "s1" rfl).2
      (SessionState.new "2025-03-26") rfl).2.2.2

/-- C10: opening the legacy stream registers the freshly minted id only in
the push-channel map, never in the session registry, so a later termination
naming that id answers 404 while still removing the channel. -/
theorem C10_legacy_session (st : AppState) (freshId : String)
    (h1 h2 : HeaderMap)
    (hO1 : validate_origin h1 st.security = .ok ())
    (hA1 : validate_auth h1 st.auth = .ok ())
    (hfresh : mapLookup st.sessions freshId = none)
    (hsid : h2.sessionId = some freshId)
    (hO2 : validate_origin h2 st.security = .ok ())
    (hA2 : validate_auth h2 st.auth = .ok ()) :
    match legacy_sse st freshId h1 with
    | .error _ => False
    | .ok r =>
      r.2.sessions = st.sessions ∧
      (mapLookup r.2.sseChannels freshId).isSome = true ∧
      (mcp_delete r.2 h2).1.status = 404 ∧
      mapLookup (mcp_delete r.2 h2).2.sseChannels freshId = none := by
  have hsse : legacy_sse st freshId h1 =
      .ok ("/messages?sessionId=" ++ freshId,
        { st with sseChannels := mapEntryOrInsert st.sseChannels freshId [] }) := by
    simp [legacy_sse, hO1, hA1]
  rw [hsse]
  refine ⟨rfl, mapLookup_entryOrInsert_isSome _ _ _, ?_, ?_⟩
  · simp [mcp_delete, hO2, hA2, hsid, hfresh]
  · simp [mcp_delete, hO2, hA2, hsid, hfresh, mapLookup_remove_self]

/-- Witness for C10 on the empty open state with fresh id `leg1`. -/
theorem C10_legacy_session_witness :
    match legacy_sse openState "leg1" emptyHeaders with
    | .error _ => False
    | .ok r =>
      r.2.sessions = openState.sessions ∧
      (mapLookup r.2.sseChannels "leg1").isSome = true ∧
      (mcp_delete r.2 { emptyHeaders with sessionId := some "leg1" }).1.status
        = 404 ∧
      mapLookup (mcp_delete r.2
        { emptyHeaders with sessionId := some "leg1" }).2.sseChannels "leg1"
        = none :=
  C10_legacy_session openState "leg1" emptyHeaders
    { emptyHeaders with sessionId := some "leg1" } rfl rfl rfl rfl rfl rfl

/-- C5 counterexample: a malformed body posted to the legacy submit endpoint
passes the security pipeline yet is answered 400, not 202. -/
theorem C5_counterexample :
    validate_origin emptyHeaders openState.security = .ok () ∧
    validate_auth emptyHeaders openState.auth = .ok () ∧
    (legacy_messages testHandler openState "sidX" none emptyHeaders
      (.str "oops")).1.status = 400 ∧
    (legacy_messages testHandler openState "sidX" none emptyHeaders
      (.str "oops")).1.status ≠ 202 := by
  refine ⟨rfl, rfl, rfl, by decide⟩

/-- C5 (amended): after passing the security pipeline the legacy submit call
never carries a body (results are never inline); when dispatch succeeds it
answers 202 and any produced response is appended to the session's push
channel; when dispatch fails it answers 400 with the state unchanged. -/
theorem C5_legacy_submit (handler : Handler) (st : AppState) (freshId : String)
    (q : Option String) (headers : HeaderMap) (body : Json)
    (hO : validate_origin headers st.security = .ok ())
    (hA : validate_auth headers st.auth = .ok ()) :
    (legacy_messages handler st freshId q headers body).1.body = none ∧
    (∀ e, handle_jsonrpc handler st freshId
        (q.orElse fun _ => headers.sessionId) body = .error e →
      (legacy_messages handler st freshId q headers body).1.status = 400 ∧
      (legacy_messages handler st freshId q headers body).2 = st) ∧
    (∀ d, handle_jsonrpc handler st freshId
        (q.orElse fun _ => headers.sessionId) body = .ok d →
      (legacy_messages handler st freshId q headers body).1.status = 202 ∧
      (∀ sess resp msgs,
        (q.orElse fun _ => headers.sessionId) = some sess →
        d.response = some resp →
        mapLookup d.state.sseChannels sess = some msgs →
        mapLookup (legacy_messages handler st freshId q headers
          body).2.sseChannels sess = some (msgs ++ [resp]))) := by
  refine ⟨?_, ?_, ?_⟩
  · cases hd : handle_jsonrpc handler st freshId
        (q.orElse fun _ => headers.sessionId) body with
    | error e => simp [legacy_messages, hO, hA, hd]
    | ok d => simp [legacy_messages, hO, hA, hd]
  · intro e hd
    simp [legacy_messages, hO, hA, hd]
  · intro d hd
    refine ⟨by simp [legacy_messages, hO, hA, hd], ?_⟩
    intro sess resp msgs hsess hresp hchan
    rw [hsess] at hd
    simp [legacy_messages, hO, hA, hsess, hd, hresp]
    exact mapLookup_publish resp hchan

/-- Witness for C5: a request on session `sidL` whose channel is open; the
response envelope is published on the channel and the call answers 202. -/
theorem C5_legacy_submit_witness :
    (legacy_messages testHandler legacyChanState "sidX" (some "sidL")
      emptyHeaders legacyBody).1.body = none ∧
    (legacy_messages testHandler legacyChanState "sidX" (some "sidL")
      emptyHeaders legacyBody).1.status = 202 ∧
    mapLookup (legacy_messages testHandler legacyChanState "sidX" (some "sidL")
      emptyHeaders legacyBody).2.sseChannels "sidL" =
      some ([] ++ [mkSuccess (.num 7) (.str "ok")]) := by
  refine ⟨(C5_legacy_submit testHandler legacyChanState "sidX" (some "sidL")
      emptyHeaders legacyBody rfl rfl).1, ?_, ?_⟩
  · exact ((C5_legacy_submit testHandler legacyChanState "sidX" (some "sidL")
      emptyHeaders legacyBody rfl rfl).2.2 legacyDispatch rfl).1
  · exact ((C5_legacy_submit testHandler legacyChanState "sidX" (some "sidL")
      emptyHeaders legacyBody rfl rfl).2.2 legacyDispatch rfl).2 "sidL"
      (mkSuccess (.num 7) (.str "ok")) [] rfl rfl rfl

/-- C8 counterexample: a requested protocol version outside the recognized
list is negotiated verbatim instead of falling back to the default. -/
theorem C8_counterexample :
    (cursor_initialize_result (.obj [("protocolVersion", .str "bogus-version")])
      [] "2025-03-26" "srv" "ins").2 = "bogus-version" ∧
    knownVersions.contains "bogus-version" = false ∧
    ("bogus-version" : String) ≠ "2025-03-26" := by
  refine ⟨rfl, rfl, by decide⟩

/-- C8 (amended): the negotiated version equals the requested
`protocolVersion` whenever the parameters carry one as a string — recognized
or not; it falls back to the configured default only when the field is
absent or not a string; the negotiated version is echoed in the result's
`protocolVersion` field. -/
theorem C8_initialize_version (params : Json) (insts : List String)
    (dflt name instr : String) :
    (∀ v, (params.get? "protocolVersion").bind Json.asStr = some v →
      (cursor_initialize_result params insts dflt name instr).2 = v) ∧
    ((params.get? "protocolVersion").bind Json.asStr = none →
      (cursor_initialize_result params insts dflt name instr).2 = dflt) ∧
    (cursor_initialize_result params insts dflt name instr).1.get?
        "protocolVersion" =
      some (.str (cursor_initialize_result params insts dflt name instr).2) := by
  refine ⟨?_, ?_, ?_⟩
  · intro v hv
    simp [cursor_initialize_result, hv]
  · intro hv
    simp [cursor_initialize_result, hv]
  · simp [cursor_initialize_result, Json.get?, Json.get?.lookupField]

/-- Witness for C8: a recognized requested version is negotiated; absent
parameters fall back to the default. -/
theorem C8_initialize_version_witness :
    (cursor_initialize_result (.obj [("protocolVersion", .str "2024-11-05")])
      [] "2025-03-26" "srv" "ins").2 = "2024-11-05" ∧
    (cursor_initialize_result (.obj []) [] "2025-03-26" "srv" "ins").2 =
      "2025-03-26" := by
  refine ⟨(C8_initialize_version (.obj [("protocolVersion", .str "2024-11-05")])
      [] "2025-03-26" "srv" "ins").1 "2024-11-05" rfl,
    (C8_initialize_version (.obj []) [] "2025-03-26" "srv" "ins").2.1 rfl⟩

/-- C9 counterexample: on a successful `initialize` the negotiated version is
returned in the `mcp-protocol-version` response header AND inside the body,
as the result's `protocolVersion` field — the claim's "not in the body" part
fails for the negotiated version. -/
theorem C9_counterexample :
    (mcp_post testHandler openState "sid1" emptyHeaders
      initializeMsg).1.headerProtocolVersion = some "2025-03-26" ∧
    ((((mcp_post testHandler openState "sid1" emptyHeaders
      initializeMsg).1.body.getD .null).get? "result").getD .null).get?
        "protocolVersion" = some (.str "2025-03-26") := by
  exact ⟨rfl, rfl⟩

/-- C9 (amended): an `initialize` message with no id is rejected 400 with
the state unchanged; a successful `initialize` with a freshly minted id
absent from the registry leaves that id present afterwards with its push
channel allocated, returns the session id and negotiated version in response
headers, and carries as body the success envelope of the initialize result —
which does not mention the session id but does repeat the negotiated version
in its `protocolVersion` field. -/
theorem C9_initialize_session (handler : Handler) (st : AppState) (freshId : String)
    (headers : HeaderMap) (fields : List (String × Json))
    (hO : validate_origin headers st.security = .ok ())
    (hA : validate_auth headers st.auth = .ok ())
    (hm : Json.get?.lookupField fields "method" = some (.str "initialize")) :
    (Json.get?.lookupField fields "id" = none →
      (mcp_post handler st freshId headers (.obj fields)).1.status = 400 ∧
      (mcp_post handler st freshId headers (.obj fields)).2 = st) ∧
    (∀ idJson id, Json.get?.lookupField fields "id" = some idJson →
      parseRequestId idJson = some id →
      mapLookup st.sessions freshId = none →
      (mcp_post handler st freshId headers (.obj fields)).1.status = 200 ∧
      (mcp_post handler st freshId headers
        (.obj fields)).1.headerSessionId = some freshId ∧
      (mcp_post handler st freshId headers
        (.obj fields)).1.headerProtocolVersion =
          some (initOutcome handler fields).2 ∧
      (mcp_post handler st freshId headers (.obj fields)).1.body =
        some (mkSuccess id (initOutcome handler fields).1) ∧
      mapLookup (mcp_post handler st freshId headers
        (.obj fields)).2.sessions freshId =
          some (SessionState.new (initOutcome handler fields).2) ∧
      (mapLookup (mcp_post handler st freshId headers
        (.obj fields)).2.sseChannels freshId).isSome = true) := by
  have hinit : ((Json.obj fields).get? "method").bind Json.asStr =
      some "initialize" := by
    rw [show (Json.obj fields).get? "method" =
      Json.get?.lookupField fields "method" from rfl, hm]
    rfl
  refine ⟨?_, ?_⟩
  · intro hid
    have hd : handle_jsonrpc handler st freshId headers.sessionId
        (.obj fields) =
        .error (400, .obj [("error", .str "initialize requires id")]) := by
      simp [handle_jsonrpc, hm, hid, Json.asStr]
    refine ⟨?_, ?_⟩ <;> simp [mcp_post, hO, hA, hinit, hd]
  · intro idJson id hid hpid hfresh
    have hd : handle_jsonrpc handler st freshId headers.sessionId
        (.obj fields) =
        .ok { state := { st with
                sessions := mapInsert st.sessions freshId
                  (SessionState.new (initOutcome handler fields).2),
                sseChannels := mapEntryOrInsert st.sseChannels freshId [] },
              newSession := some freshId,
              response := some (mkSuccess id (initOutcome handler fields).1),
              status := 200,
              protocolVersion := some (initOutcome handler fields).2 } := by
      simp [handle_jsonrpc, hm, hid, hpid, initOutcome, Json.asStr]
    have hpost : mcp_post handler st freshId headers (.obj fields) =
        ({ status := 200, headerSessionId := some freshId,
           headerProtocolVersion := some (initOutcome handler fields).2,
           body := some (mkSuccess id (initOutcome handler fields).1) },
         { st with
           sessions := mapInsert st.sessions freshId
             (SessionState.new (initOutcome handler fields).2),
           sseChannels := mapEntryOrInsert st.sseChannels freshId [] }) := by
      simp [mcp_post, hO, hA, hinit, hd]
    rw [hpost]
    exact ⟨rfl, rfl, rfl, rfl, mapLookup_insert_self _ _ _,
      mapLookup_entryOrInsert_isSome _ _ _⟩

/-- Witness for C9 on the empty open state. -/
theorem C9_initialize_session_witness :
    ((mcp_post testHandler openState "sid1" emptyHeaders
      (.obj initFieldsNoId)).1.status = 400 ∧
     (mcp_post testHandler openState "sid1" emptyHeaders
      (.obj initFieldsNoId)).2 = openState) ∧
    ((mcp_post testHandler openState "sid1" emptyHeaders
      (.obj initFields)).1.status = 200 ∧
     (mcp_post testHandler openState "sid1" emptyHeaders
      (.obj initFields)).1.headerSessionId = some "sid1" ∧
     (mcp_post testHandler openState "sid1" emptyHeaders
      (.obj initFields)).1.headerProtocolVersion =
        some (initOutcome testHandler initFields).2 ∧
     (mcp_post testHandler openState "sid1" emptyHeaders
      (.obj initFields)).1.body =
        some (mkSuccess (.num 1) (initOutcome testHandler initFields).1) ∧
     mapLookup (mcp_post testHandler openState "sid1" emptyHeaders
      (.obj initFields)).2.sessions "sid1" =
        some (SessionState.new (initOutcome testHandler initFields).2) ∧
     (mapLookup (mcp_post testHandler openState "sid1" emptyHeaders
      (.obj initFields)).2.sseChannels "sid1").isSome = true) := by
  refine ⟨(C9_initialize_session testHandler openState "sid1" emptyHeaders
      initFieldsNoId rfl rfl rfl).1 rfl,
    (C9_initialize_session testHandler openState "sid1" emptyHeaders
      initFields rfl rfl rfl).2 (.num 1) (.num 1) rfl rfl rfl⟩

/-- C2 counterexample: a request whose protocol-version header the
protocol-version check rejects still flows through `GET /mcp` (and
`DELETE /mcp`) untouched — the check does not run on those entry points, so
the three checks do not all run before endpoint logic. -/
theorem C2_counterexample :
    validate_protocol_version
      { emptyHeaders with protocolVersion := some "bogus" } none =
      .error (.jsonrpcErr 400 invalidRequestCode
        "Unsupported protocol version: bogus") ∧
    (mcp_get openState
      { emptyHeaders with protocolVersion := some "bogus" }).toOption.isSome
      = true ∧
    (mcp_delete openState
      { emptyHeaders with
        protocolVersion := some "bogus", sessionId := some "s" }).1.status = 404 := by
  exact ⟨rfl, rfl, rfl⟩

/-- C2 (amended): on all five non-public transport entry points the origin
check runs first and the auth check second, each failure being returned
verbatim with the state untouched; the protocol-version check belongs only
to `POST /mcp`, where it fires exactly for non-`initialize` messages
carrying a live session id, and only after session validation: an
`initialize` message and a session-id-less message are processed
independently of the protocol-version header, and an unknown session id is
answered 404 regardless of that header — the four other entry points never
consult the protocol-version header. -/
theorem C2_security_pipeline (handler : Handler) (st : AppState)
    (freshId : String) (headers : HeaderMap) (body : Json)
    (q : Option String) (f : CheckFail) :
    (validate_origin headers st.security = .error f →
      mcp_post handler st freshId headers body = (failResponse f, st) ∧
      mcp_get st headers = .error f ∧
      mcp_delete st headers = (failResponse f, st) ∧
      legacy_sse st freshId headers = .error f ∧
      legacy_messages handler st freshId q headers body = (failResponse f, st)) ∧
    (validate_origin headers st.security = .ok () →
      validate_auth headers st.auth = .error f →
      mcp_post handler st freshId headers body = (failResponse f, st) ∧
      mcp_get st headers = .error f ∧
      mcp_delete st headers = (failResponse f, st) ∧
      legacy_sse st freshId headers = .error f ∧
      legacy_messages handler st freshId q headers body = (failResponse f, st)) ∧
    (∀ sid sSt, validate_origin headers st.security = .ok () →
      validate_auth headers st.auth = .ok () →
      headers.sessionId = some sid →
      ((body.get? "method").bind Json.asStr) ≠ some "initialize" →
      mapLookup st.sessions sid = some sSt →
      validate_protocol_version headers (some sSt) = .error f →
      mcp_post handler st freshId headers body = (failResponse f, st)) ∧
    (∀ pv : Option String,
      ((body.get? "method").bind Json.asStr) = some "initialize" →
      validate_origin headers st.security = .ok () →
      validate_auth headers st.auth = .ok () →
      mcp_post handler st freshId { headers with protocolVersion := pv }
        body = mcp_post handler st freshId headers body) ∧
    (∀ pv : Option String,
      headers.sessionId = none →
      validate_origin headers st.security = .ok () →
      validate_auth headers st.auth = .ok () →
      mcp_post handler st freshId { headers with protocolVersion := pv }
        body = mcp_post handler st freshId headers body) ∧
    (∀ sid, validate_origin headers st.security = .ok () →
      validate_auth headers st.auth = .ok () →
      headers.sessionId = some sid →
      ((body.get? "method").bind Json.asStr) ≠ some "initialize" →
      mapLookup st.sessions sid = none →
      mcp_post handler st freshId headers body =
        (failResponse (.jsonrpcErr 404 invalidRequestCode
          "Session not found or expired"), st)) ∧
    (∀ pv : Option String,
      mcp_get st { headers with protocolVersion := pv } = mcp_get st headers ∧
      mcp_delete st { headers with protocolVersion := pv } =
        mcp_delete st headers ∧
      legacy_sse st freshId { headers with protocolVersion := pv } =
        legacy_sse st freshId headers ∧
      legacy_messages handler st freshId q
        { headers with protocolVersion := pv } body =
        legacy_messages handler st freshId q headers body) := by
  refine ⟨?_, ?_, ?_, ?_, ?_, ?_, ?_⟩
  · intro hO
    refine ⟨by simp [mcp_post, hO], by simp [mcp_get, hO],
      by simp [mcp_delete, hO], by simp [legacy_sse, hO],
      by simp [legacy_messages, hO]⟩
  · intro hO hA
    refine ⟨by simp [mcp_post, hO, hA], by simp [mcp_get, hO, hA],
      by simp [mcp_delete, hO, hA], by simp [legacy_sse, hO, hA],
      by simp [legacy_messages, hO, hA]⟩
  · intro sid sSt hO hA hsid hne hlook hpv
    have hdec : decide (((body.get? "method").bind Json.asStr) =
        some "initialize") = false := decide_eq_false hne
    simp [mcp_post, hO, hA, hdec, hsid, validate_session, hlook, hpv]
  · intro pv hinit hO hA
    have hO2 : validate_origin { headers with protocolVersion := pv }
        st.security = .ok () := hO
    have hA2 : validate_auth { headers with protocolVersion := pv }
        st.auth = .ok () := hA
    have hdec : decide (((body.get? "method").bind Json.asStr) =
        some "initialize") = true := decide_eq_true hinit
    simp [mcp_post, hO, hA, hO2, hA2, hdec]
  · intro pv hsid hO hA
    have hO2 : validate_origin { headers with protocolVersion := pv }
        st.security = .ok () := hO
    have hA2 : validate_auth { headers with protocolVersion := pv }
        st.auth = .ok () := hA
    rw [hsid] at hO2 hA2
    cases hb : decide (((body.get? "method").bind Json.asStr) =
        some "initialize") <;>
      simp [mcp_post, hO, hA, hO2, hA2, hb, hsid]
  · intro sid hO hA hsid hne hlook
    have hdec : decide (((body.get? "method").bind Json.asStr) =
        some "initialize") = false := decide_eq_false hne
    simp [mcp_post, hO, hA, hdec, hsid, validate_session, hlook]
  · intro pv
    exact ⟨rfl, rfl, rfl, rfl⟩

/-- Witness for C2: the checks observed in order on `POST /mcp` — an origin
failure wins over a simultaneous auth failure, an auth failure wins over a
bad version header, a bad version header is rejected on a non-`initialize`
message with a live session id but is ignored for an `initialize` message
and for a session-id-less message, an unknown session id is answered 404
despite the bad version header, and `GET /mcp` ignores the version header
entirely. -/
theorem C2_security_pipeline_witness :
    mcp_post testHandler lockedState "f1" badEverythingHeaders
      (.obj [("method", .str "tools/list"), ("id", .num 3)]) =
      (failResponse (.jsonrpcErr 403 invalidRequestCode
        "Origin not allowed: only localhost permitted"), lockedState) ∧
    mcp_post testHandler lockedState "f1"
      { badEverythingHeaders with origin := some "http://localhost:3000" }
      (.obj [("method", .str "tools/list"), ("id", .num 3)]) =
      (failResponse (.authErr 401 "invalid_request"
        "Missing Authorization header"), lockedState) ∧
    mcp_post testHandler lockedState "f1"
      { badEverythingHeaders with
        origin := some "http://localhost:3000",
        authorization := some "Bearer secret" }
      (.obj [("method", .str "tools/list"), ("id", .num 3)]) =
      (failResponse (.jsonrpcErr 400 invalidRequestCode
        "Unsupported protocol version: bogus"), lockedState) ∧
    mcp_post testHandler lockedState "f1"
      { badEverythingHeaders with
        origin := some "http://localhost:3000",
        authorization := some "Bearer secret" } initializeMsg =
      mcp_post testHandler lockedState "f1"
      { badEverythingHeaders with
        origin := some "http://localhost:3000",
        authorization := some "Bearer secret", protocolVersion := none }
      initializeMsg ∧
    mcp_post testHandler openState "f1"
      { emptyHeaders with protocolVersion := some "bogus" } toolsListMsg =
      mcp_post testHandler openState "f1" emptyHeaders toolsListMsg ∧
    mcp_post testHandler lockedState "f1"
      { badEverythingHeaders with
        origin := some "http://localhost:3000",
        authorization := some "Bearer secret", sessionId := some "ghost" }
      toolsListMsg =
      (failResponse (.jsonrpcErr 404 invalidRequestCode
        "Session not found or expired"), lockedState) ∧
    mcp_get lockedState { badEverythingHeaders with
      origin := some "http://localhost:3000",
      authorization := some "Bearer secret" } =
      mcp_get lockedState { badEverythingHeaders with
        origin := some "http://localhost:3000",
        authorization := some "Bearer secret", protocolVersion := none } := by
  refine ⟨?_, ?_, ?_, ?_, ?_, ?_, ?_⟩
  · exact ((C2_security_pipeline testHandler lockedState "f1"
      badEverythingHeaders
      (.obj [("method", .str "tools/list"), ("id", .num 3)]) none
      (.jsonrpcErr 403 invalidRequestCode
        "Origin not allowed: only localhost permitted")).1 rfl).1
  · exact ((C2_security_pipeline testHandler lockedState "f1"
      { badEverythingHeaders with origin := some "http://localhost:3000" }
      (.obj [("method", .str "tools/list"), ("id", .num 3)]) none
      (.authErr 401 "invalid_request" "Missing Authorization header")).2.1
      rfl rfl).1
  · exact (C2_security_pipeline testHandler lockedState "f1"
      { badEverythingHeaders with
        origin := some "http://localhost:3000",
        authorization := some "Bearer secret" }
      (.obj [("method", .str "tools/list"), ("id", .num 3)]) none
      (.jsonrpcErr 400 invalidRequestCode
        "Unsupported protocol version: bogus")).2.2.1 "s1"
      (SessionState.new "2025-03-26") rfl rfl rfl
      (by simp [Json.get?, Json.get?.lookupField, Json.asStr]) rfl rfl
  · exact (C2_security_pipeline testHandler lockedState "f1"
      { badEverythingHeaders with
        origin := some "http://localhost:3000",
        authorization := some "Bearer secret", protocolVersion := none }
      initializeMsg none
      (.jsonrpcErr 400 invalidRequestCode "x")).2.2.2.1 (some "bogus")
      rfl rfl rfl
  · exact (C2_security_pipeline testHandler openState "f1" emptyHeaders
      toolsListMsg none
      (.jsonrpcErr 400 invalidRequestCode "x")).2.2.2.2.1 (some "bogus")
      rfl rfl rfl
  · exact (C2_security_pipeline testHandler lockedState "f1"
      { badEverythingHeaders with
        origin := some "http://localhost:3000",
        authorization := some "Bearer secret", sessionId := some "ghost" }
      toolsListMsg none
      (.jsonrpcErr 400 invalidRequestCode "x")).2.2.2.2.2.1 "ghost"
      rfl rfl rfl
      (by simp [toolsListMsg, Json.get?, Json.get?.lookupField, Json.asStr])
      rfl
  · exact ((C2_security_pipeline testHandler lockedState "f1"
      { badEverythingHeaders with
        origin := some "http://localhost:3000",
        authorization := some "Bearer secret", protocolVersion := none }
      (.obj []) none
      (.jsonrpcErr 400 invalidRequestCode "x")).2.2.2.2.2.2 (some "bogus")).1

/-- C1: the code at the failing input — `initialize` creates the session
with `initialized = true` (`SessionState::new`), so a method submitted with
that session id before any `initialized` notification is dispatched normally
and answered with a success envelope, not with the "server not initialized"
protocol error that the handshake gating (and its own comments) prescribe. -/
theorem C1_code_behavior :
    (SessionState.new "2025-03-26").initialized = true ∧
    mapLookup stAfterInit.sessions "sid1" =
      some (SessionState.new "2025-03-26") ∧
    (mcp_post testHandler stAfterInit "sid2"
      { emptyHeaders with sessionId := some "sid1" } toolsListMsg).1.body =
      some (mkSuccess (.num 2) (.str "ok")) ∧
    (mcp_post testHandler stAfterInit "sid2"
      { emptyHeaders with sessionId := some "sid1" } toolsListMsg).1.body ≠
      some (mkError (.num 2) serverNotInitializedCode
        "Server not initialized") := by
  refine ⟨rfl, rfl, rfl, ?_⟩
  have hbody : (mcp_post testHandler stAfterInit "sid2"
      { emptyHeaders with sessionId := some "sid1" } toolsListMsg).1.body =
      some (mkSuccess (.num 2) (.str "ok")) := rfl
  rw [hbody]
  simp [mkSuccess, mkError, requestIdJson]

end McpHttp
